import Mathlib

/-!
# Verification of the momenta reactive runtime (momenta-core/src/signals.rs)

This file shallowly embeds the dependency-tracking/scheduling engine of the
momenta UI runtime: the signal store, dependency graph, scope render engine,
effect registry, batching/drain scheduler and memo layer, all translated from
`src/momenta-core/src/signals.rs`.

Modelling conventions:
* The process-global mutable maps (`SIGNALS`, `SCOPE_SIGNAL_CHANGES`,
  `SCOPE_DEPENDENCIES`, `SIGNAL_DEPENDENCIES`, `PENDING_SCOPE_RENDERS`,
  `EXECUTING_EFFECTS`, the counters, flags and registries) become fields of an
  explicit state record `St`, threaded through every operation.
* `BTreeMap`s become association lists with insert-or-replace semantics;
  `BTreeSet`s become duplicate-free lists; popping the first element of a
  `BTreeSet` iterator (the least element) becomes popping the minimum.
* Rust's type-erased `Box<dyn SignalValue>` store with `Any` downcasting
  becomes a closed universe `Val` of stored values together with a tag type
  `Ty`; `Ty.downcast` plays the role of `downcast_ref::<T>()` and can fail,
  exactly like the Rust downcast.
* User-supplied closures (scope render bodies, post-render callbacks, effect
  bodies) are abstract state transformers collected in an environment `Env`;
  the registries in `St` record which scope functions / callbacks / effects
  are registered, mirroring `SCOPE_FUNCTIONS`, `SCOPE_CALLBACKS`,
  `SCOPE_EFFECTS`.
* The recursion `render_scope` → `process_pending_renders` → `render_scope`
  is made structural with an explicit fuel parameter; the drain loop itself
  is bounded by the source's `MAX_ITERATIONS = 100` and needs no extra fuel.
* Rust panics (`unwrap()` on `None`) are modelled with `Except`.
-/

--==============================================================================
-- VALUE UNIVERSE (type-erased storage, `Box<dyn SignalValue>` + `Any`)
--==============================================================================

/-- Closed universe of values stored in the signal store, standing in for the
type-erased `StoredValue { value: Box<dyn SignalValue> }`. -/
inductive Val where
  | vnat  (n : Nat)
  | vstr  (s : String)
  | vbool (b : Bool)
deriving DecidableEq, Repr

/-- Type tags, standing in for the generic parameter `T` of `Signal<T>`. -/
inductive Ty where
  | nat
  | str
  | bool
deriving DecidableEq, Repr

/-- The Lean type denoted by a tag. -/
@[reducible] def Ty.denote : Ty → Type
  | .nat  => Nat
  | .str  => String
  | .bool => Bool

instance (t : Ty) : DecidableEq t.denote := by
  cases t <;> · dsimp [Ty.denote]; infer_instance

/-- Injection of a typed value into the erased store
(`Box::new(value)` as a `Box<dyn SignalValue>`). -/
def Ty.embed : (t : Ty) → t.denote → Val
  | .nat,  n => .vnat n
  | .str,  s => .vstr s
  | .bool, b => .vbool b

/-- Models `stored.value.as_any().and_then(|any| any.downcast_ref::<T>())`:
recover a typed value from the erased store; fails on a tag mismatch. -/
def Ty.downcast : (t : Ty) → Val → Option t.denote
  | .nat,  .vnat n  => some n
  | .str,  .vstr s  => some s
  | .bool, .vbool b => some b
  | _,     _        => none

theorem Ty.downcast_embed (t : Ty) (v : t.denote) : t.downcast (t.embed v) = some v := by
  cases t <;> rfl

--==============================================================================
-- NODES (the subset of momenta-core/src/nodes.rs the engine touches)
--==============================================================================

/-- An element: the render engine only touches its `key` field
(`el.key = scope_id.to_string()`), so only that field is modelled. -/
structure Element where
  key : String
deriving DecidableEq, Repr

/-- Models `Node` from nodes.rs.  `Fragment`'s children, attribute maps etc. are
irrelevant to the signals engine and elided. -/
inductive Node where
  | element (el : Element)
  | text (s : String)
  | fragment
  | comment (s : String)
  | static (s : String)
  | empty
deriving DecidableEq, Repr

/-- Models `if let Some(el) = node.as_element_mut() { el.key = scope_id.to_string(); }` -/
def tagNode (scopeId : Nat) (n : Node) : Node :=
  match n with
  | .element el => .element { el with key := toString scopeId }
  | other => other

--==============================================================================
-- ASSOCIATION-LIST MAPS AND SETS
--==============================================================================

/-- Models `BTreeMap::get`. -/
def lookupA {α β : Type} [DecidableEq α] : List (α × β) → α → Option β
  | [], _ => none
  | (k, v) :: rest, key => if k = key then some v else lookupA rest key

/-- Models `BTreeMap::insert` (replace an existing binding, else add one). -/
def insertA {α β : Type} [DecidableEq α] : List (α × β) → α → β → List (α × β)
  | [], key, v => [(key, v)]
  | (k, w) :: rest, key, v =>
      if k = key then (key, v) :: rest else (k, w) :: insertA rest key v

/-- Models `BTreeMap::remove` (dropping the binding). -/
def removeA {α β : Type} [DecidableEq α] : List (α × β) → α → List (α × β)
  | [], _ => []
  | (k, w) :: rest, key => if k = key then rest else (k, w) :: removeA rest key

/-- Models `BTreeSet::insert`: duplicate-free insertion. -/
def insertSet {α : Type} [DecidableEq α] (l : List α) (x : α) : List α :=
  if l.contains x then l else x :: l

/-- Minimum of a list of naturals (`BTreeSet::iter().next()` returns the
least element). -/
def listMin? : List Nat → Option Nat
  | [] => none
  | x :: xs => some (xs.foldl Nat.min x)

--==============================================================================
-- GLOBAL STATE
--==============================================================================

/-- A signal key `(scope_id, signal_id)`; the only data a `Signal<T>` handle
carries. -/
abbrev SigKey := Nat × Nat

/-- The global state of the runtime: every `static ...: Mutex<...>` of
signals.rs becomes one field. -/
structure St where
  /-- Models `CURRENT_SCOPE` -/
  currentScope : Option Nat
  /-- Models `RENDERING_SCOPE` (0 = none) -/
  renderingScope : Nat
  /-- Models `NEXT_SCOPE_ID` -/
  nextScopeId : Nat
  /-- Models `SCOPE_SIGNAL_COUNTERS` -/
  scopeSignalCounters : List (Nat × Nat)
  /-- Models `SCOPE_EFFECT_COUNTERS` -/
  scopeEffectCounters : List (Nat × Nat)
  /-- Models `BATCH_UPDATES` -/
  batchUpdates : Bool
  /-- Models `SIGNALS` -/
  signals : List (SigKey × Val)
  /-- Models `SCOPE_SIGNAL_CHANGES` -/
  scopeSignalChanges : List SigKey
  /-- Models `SCOPE_FUNCTIONS` (the set of scope ids with a registered render
  function; the functions' semantics live in `Env.bodies`) -/
  scopeFunctions : List Nat
  /-- Models `SCOPE_CALLBACKS` (registered scope ids; semantics in `Env.cbs`) -/
  scopeCallbacks : List Nat
  /-- Models `SCOPE_EFFECTS` (registered effect keys; semantics in `Env.effs`) -/
  scopeEffects : List SigKey
  /-- Models `SCOPE_DEPENDENCIES` -/
  scopeDependencies : List (Nat × List SigKey)
  /-- Models `SIGNAL_DEPENDENCIES` -/
  signalDependencies : List (SigKey × List Nat)
  /-- Models `PENDING_SCOPE_RENDERS` -/
  pendingScopeRenders : List Nat
  /-- Models `MEMO_CACHE` -/
  memoCache : List (String × Val)
  /-- Models `EXECUTING_EFFECTS` -/
  executingEffects : List SigKey
deriving Repr

/-- The semantics of the user-supplied closures held in the registries:
render bodies (`SCOPE_FUNCTIONS`), post-render callbacks (`SCOPE_CALLBACKS`)
and effect bodies (`SCOPE_EFFECTS`) are arbitrary state transformers. -/
structure Env where
  bodies : Nat → St → St × Node
  cbs : Nat → Node → St → St
  effs : SigKey → St → St

/-- A runtime state with every table empty, no batch, no scope active. -/
def St.initial : St :=
  { currentScope := none
    renderingScope := 0
    nextScopeId := 1
    scopeSignalCounters := []
    scopeEffectCounters := []
    batchUpdates := false
    signals := []
    scopeSignalChanges := []
    scopeFunctions := []
    scopeCallbacks := []
    scopeEffects := []
    scopeDependencies := []
    signalDependencies := []
    pendingScopeRenders := []
    memoCache := []
    executingEffects := [] }

--==============================================================================
-- INTERNAL HELPERS (signals.rs "INTERNAL FUNCTIONS" section)
--==============================================================================

/-- Models `get_current_scope` -/
def getCurrentScope (st : St) : Option Nat := st.currentScope

/-- Models `get_next_signal_id_for_scope`: `or_insert(0)`, `+= 1`, return. -/
def getNextSignalId (scopeId : Nat) (st : St) : Nat × St :=
  let c := (lookupA st.scopeSignalCounters scopeId).getD 0
  let c' := c + 1
  (c', { st with scopeSignalCounters := insertA st.scopeSignalCounters scopeId c' })

/-- Models `get_next_effect_id_for_scope` -/
def getNextEffectId (scopeId : Nat) (st : St) : Nat × St :=
  let c := (lookupA st.scopeEffectCounters scopeId).getD 0
  let c' := c + 1
  (c', { st with scopeEffectCounters := insertA st.scopeEffectCounters scopeId c' })

/-- Models `reset_signal_counters` -/
def resetSignalCounters (scopeId : Nat) (st : St) : St :=
  { st with scopeSignalCounters := removeA st.scopeSignalCounters scopeId }

/-- Models `reset_effect_counters` -/
def resetEffectCounters (scopeId : Nat) (st : St) : St :=
  { st with scopeEffectCounters := removeA st.scopeEffectCounters scopeId }

/-- Models `scope_has_signal_changes` — translated exactly as written: it returns
`true` when the scope has no entry in `SCOPE_DEPENDENCIES` (initial render),
and otherwise asks whether the scope appears in any `SIGNAL_DEPENDENCIES`
entry.  Note that it never consults `SCOPE_SIGNAL_CHANGES`. -/
def scopeHasSignalChanges (st : St) (scopeId : Nat) : Bool :=
  let hasDependencies := (lookupA st.scopeDependencies scopeId).isSome
  if !hasDependencies then
    true
  else
    st.signalDependencies.any (fun p => p.2.contains scopeId)

--==============================================================================
-- SCOPE RENDER ENGINE AND DRAIN SCHEDULER
--==============================================================================

/-- The dependency-clearing step of `render_scope` (lines 907–921): remove the
scope's `SCOPE_DEPENDENCIES` entry and delete the scope from each of those
signals' `SIGNAL_DEPENDENCIES` sets. -/
def clearScopeDeps (scopeId : Nat) (st : St) : St :=
  match lookupA st.scopeDependencies scopeId with
  | none => { st with scopeDependencies := removeA st.scopeDependencies scopeId }
  | some signalIds =>
      let st := { st with scopeDependencies := removeA st.scopeDependencies scopeId }
      { st with
        signalDependencies :=
          signalIds.foldl
            (fun sd sig =>
              match lookupA sd sig with
              | some scopes => insertA sd sig (scopes.erase scopeId)
              | none => sd)
            st.signalDependencies }

/-- The pending-queue step of `render_scope` (lines 963–974): for each changed
signal, queue every *other* dependent scope for re-render. -/
def queuePendings (scopeId : Nat) (changes : List SigKey) (st : St) : St :=
  { st with
    pendingScopeRenders :=
      changes.foldl
        (fun pending sig =>
          match lookupA st.signalDependencies sig with
          | some dependentScopes =>
              dependentScopes.foldl
                (fun p dep => if dep ≠ scopeId then insertSet p dep else p)
                pending
          | none => pending)
        st.pendingScopeRenders }

/-- Models `run_scope_effects`: collect this scope's effect ids, then run each one
unless it is already in `EXECUTING_EFFECTS` (reentrancy guard), inserting it
into and removing it from the executing set around the call. -/
def runScopeEffects (env : Env) (scopeId : Nat) (st : St) : St :=
  let effectIds := st.scopeEffects.filter (fun k => k.1 = scopeId)
  effectIds.foldl
    (fun s eid =>
      if s.executingEffects.contains eid then s
      else
        let s := { s with executingEffects := insertSet s.executingEffects eid }
        let s := if s.scopeEffects.contains eid then env.effs eid s else s
        { s with executingEffects := s.executingEffects.erase eid })
    st

/-- Models `MAX_ITERATIONS` of `process_pending_renders`. -/
def MAX_ITERATIONS : Nat := 100

/-- Models `pending.iter().next().copied().inspect(|id| { pending.remove(id); })`:
pop the least pending scope id, if any. -/
def popMinPending (st : St) : Option (Nat × St) :=
  match listMin? st.pendingScopeRenders with
  | none => none
  | some m => some (m, { st with pendingScopeRenders := st.pendingScopeRenders.erase m })

/-- The drain loop of `process_pending_renders`, parametrised by the render
function it calls back into.  `remaining` counts the loop iterations still
allowed (entered with `MAX_ITERATIONS`); the source increments `iterations`
right after the pop and breaks *before* rendering once
`iterations >= MAX_ITERATIONS`, so the final permitted pop is discarded
without a render.  Returns the final state and the list of popped scope ids. -/
def drainLoopGo (render : Nat → St → St) : Nat → St → St × List Nat
  | 0, st => (st, [])
  | r + 1, st =>
      match popMinPending st with
      | none => (st, [])
      | some (scopeId, st1) =>
          if r = 0 then
            (st1, [scopeId])
          else
            let st2 := render scopeId st1
            let (st3, rest) := drainLoopGo render r st2
            (st3, scopeId :: rest)

/-- Models `render_scope`, with explicit fuel making the recursion through
`process_pending_renders` structural (the drain call at the end inlines
`process_pending_renders`, defined just below as exactly that expression).
Out of fuel the function returns the state unchanged with an empty node
(never reached in the claims below, which supply enough fuel). -/
def renderScope (env : Env) : Nat → Nat → St → St × Node
  | 0, _, st => (st, Node.empty)
  | fuel + 1, scopeId, st =>
      -- `let _guard = ScopeGuard { previous_scope: get_current_scope() }`
      let prev := getCurrentScope st
      -- reentrancy check against RENDERING_SCOPE
      if st.renderingScope = scopeId then
        (st, Node.empty)
      else
        let st := { st with currentScope := some scopeId }
        if !scopeHasSignalChanges st scopeId then
          ({ st with currentScope := prev }, Node.empty)
        else
          let wasRendering := st.renderingScope
          let st :=
            { st with
              renderingScope := scopeId
              scopeSignalChanges :=
                st.scopeSignalChanges.filter (fun k => k.1 ≠ scopeId) }
          let shouldClearDeps := wasRendering = 0
          let st := if shouldClearDeps then clearScopeDeps scopeId st else st
          -- remove the scope function, run it, re-insert it, tag the node
          let hasFn := st.scopeFunctions.contains scopeId
          let st := { st with scopeFunctions := st.scopeFunctions.erase scopeId }
          let (st, node?) :=
            if hasFn then
              let (st', n) := env.bodies scopeId st
              let st' := { st' with scopeFunctions := insertSet st'.scopeFunctions scopeId }
              (st', some (tagNode scopeId n))
            else (st, none)
          -- post-render callback
          let st :=
            match node? with
            | some n => if st.scopeCallbacks.contains scopeId then env.cbs scopeId n st else st
            | none => st
          let st := resetSignalCounters scopeId st
          let st := runScopeEffects env scopeId st
          let st := resetEffectCounters scopeId st
          -- take the accumulated signal changes, restore RENDERING_SCOPE
          let (st, changes?) :=
            if st.scopeSignalChanges.isEmpty then
              ({ st with renderingScope := wasRendering }, none)
            else
              ({ st with scopeSignalChanges := [], renderingScope := wasRendering },
               some st.scopeSignalChanges)
          let st :=
            match changes? with
            | some chs =>
                let st := queuePendings scopeId chs st
                -- `process_pending_renders()`, inlined to keep the recursion
                -- structural in `fuel`
                if wasRendering = 0 then
                  (drainLoopGo (fun sc s => (renderScope env fuel sc s).1) MAX_ITERATIONS st).1
                else st
            | none => st
          ({ st with currentScope := prev }, node?.getD Node.empty)

/-- Models `process_pending_renders`: one run of the bounded drain loop, rendering
popped scopes through `renderScope` at the given fuel. -/
def processPendingRenders (env : Env) (fuel : Nat) (st : St) : St :=
  (drainLoopGo (fun sc s => (renderScope env fuel sc s).1) MAX_ITERATIONS st).1

--==============================================================================
-- SIGNAL HANDLE API
--==============================================================================

namespace Signal

/-- Models `Signal::with`: if a scope is the current execution context, record the
dependency edge in both indices; then look the entry up, downcast it, and
apply `f`, yielding `None` when the entry is absent or the downcast fails. -/
def with_ {R : Type} (t : Ty) (f : t.denote → R) (id : SigKey) (st : St) :
    St × Option R :=
  let st :=
    match getCurrentScope st with
    | some currentScope =>
        { st with
          signalDependencies :=
            insertA st.signalDependencies id
              (insertSet ((lookupA st.signalDependencies id).getD []) currentScope)
          scopeDependencies :=
            insertA st.scopeDependencies currentScope
              (insertSet ((lookupA st.scopeDependencies currentScope).getD []) id) }
    | none => st
  (st, ((lookupA st.signals id).bind t.downcast).map f)

/-- The ways a modelled operation can panic. -/
inductive PanicKind where
  | unwrapNone
deriving DecidableEq, Repr

/-- Models `Signal::get`: `self.with(|val| val.clone()).unwrap()` — the `unwrap`
panics when `with` yields `None`, modelled as `Except.error`. -/
def get (t : Ty) (id : SigKey) (st : St) : St × Except PanicKind t.denote :=
  let (st', r) := with_ t (fun v => v) id st
  (st', match r with
        | some v => .ok v
        | none => .error .unwrapNone)

/-- The render-now decision of `Signal::set` (line 437):
`!should_batch && get_current_scope().is_none() && !is_in_effect`, where
`should_batch` reads `BATCH_UPDATES` and `is_in_effect` is
`!EXECUTING_EFFECTS.lock().is_empty()`. -/
def shouldRenderNow (st : St) : Bool :=
  let shouldBatch := st.batchUpdates
  let isInEffect := !st.executingEffects.isEmpty
  !shouldBatch && (getCurrentScope st).isNone && !isInEffect

/-- Models `Signal::set`: replace the stored value only if an entry exists, downcasts
to `T`, and differs from the new value; on change record the key in
`SCOPE_SIGNAL_CHANGES` and render the owning scope immediately only when not
batching, no scope is the current execution context, and no effect is
executing. -/
def set (env : Env) (fuel : Nat) (t : Ty) (id : SigKey) (v : t.denote) (st : St) : St :=
  match lookupA st.signals id with
  | none => st
  | some stored =>
      match t.downcast stored with
      | none => st
      | some currentVal =>
          if currentVal = v then st
          else
            let st := { st with signals := insertA st.signals id (t.embed v) }
            let st := { st with scopeSignalChanges := insertSet st.scopeSignalChanges id }
            if shouldRenderNow st then
              (renderScope env fuel id.1 st).1
            else
              st

/-- Models `Signal::set` truncated right before its render decision: the store
update and change record only.  Used to express that inside a batch window
`set` never renders. -/
def setDeferred (t : Ty) (id : SigKey) (v : t.denote) (st : St) : St :=
  match lookupA st.signals id with
  | none => st
  | some stored =>
      match t.downcast stored with
      | none => st
      | some currentVal =>
          if currentVal = v then st
          else
            let st := { st with signals := insertA st.signals id (t.embed v) }
            { st with scopeSignalChanges := insertSet st.scopeSignalChanges id }

end Signal

--==============================================================================
-- SIGNAL CREATION AND MEMOIZATION
--==============================================================================

/-- Models `SignalCreationError` -/
inductive SignalCreationError where
  | outsideScope
deriving DecidableEq, Repr

/-- Models `SignalInit<T>`: either a value or an initializer function (modelled as a
state transformer, since a Rust closure may touch the global tables). -/
inductive SignalInit (t : Ty) where
  | value (v : t.denote)
  | initFn (f : St → St × t.denote)

/-- Models `create_signal`: requires an active scope (otherwise the `unwrap` panics,
modelled as `Except.error`), takes the next ordinal signal id for the scope,
and inserts the initial value only when no entry for the key exists — an
existing entry is preserved and the initializer is not run. -/
def createSignal (t : Ty) (init : SignalInit t) (st : St) :
    Except SignalCreationError (St × SigKey) :=
  match getCurrentScope st with
  | none => .error .outsideScope
  | some scopeId =>
      let (signalId, st) := getNextSignalId scopeId st
      let id : SigKey := (scopeId, signalId)
      if (lookupA st.signals id).isNone then
        let (st, initialValue) :=
          match init with
          | .value v => (st, v)
          | .initFn f => f st
        .ok ({ st with signals := insertA st.signals id (t.embed initialValue) }, id)
      else
        .ok (st, id)

/-- Models `create_effect`: requires an active scope, takes the scope's next effect
ordinal and registers the effect under it. -/
def createEffect (st : St) : Except SignalCreationError (St × SigKey) :=
  match getCurrentScope st with
  | none => .error .outsideScope
  | some scopeId =>
      let (effectId, st) := getNextEffectId scopeId st
      .ok ({ st with scopeEffects := insertSet st.scopeEffects (scopeId, effectId) }, (scopeId, effectId))

/-- Models `create_memo`: requires an active scope; takes the next signal ordinal;
builds the cache key `format!("{}-{}", key, scope_id)`; on a cache hit whose
value downcasts to `T` it seeds the signal store from the cached value and
returns at once (lines 538–552); otherwise it runs the computation, caches
and stores the result, and registers the change-triggered write-back effect
via `create_effect` (lines 554–582).  The registered effect's body semantics
live in `Env.effs`. -/
def createMemo (t : Ty) (key : String) (computation : St → St × t.denote) (st : St) :
    Except SignalCreationError (St × SigKey) :=
  match getCurrentScope st with
  | none => .error .outsideScope
  | some scopeId =>
      let (signalId, st) := getNextSignalId scopeId st
      let id : SigKey := (scopeId, signalId)
      let cacheKey := key ++ "-" ++ toString scopeId
      -- the compute-and-cache path, reached by both fallthroughs of the
      -- nested cache-check `if let`s
      let computeAndCache : St → Except SignalCreationError (St × SigKey) := fun st =>
        let (st, initialValue) := computation st
        let st := { st with memoCache := insertA st.memoCache cacheKey (t.embed initialValue) }
        let st := { st with signals := insertA st.signals id (t.embed initialValue) }
        let (effectId, st) := getNextEffectId scopeId st
        .ok ({ st with scopeEffects := insertSet st.scopeEffects (scopeId, effectId) }, id)
      match lookupA st.memoCache cacheKey with
      | some cached =>
          match t.downcast cached with
          | some _ => .ok ({ st with signals := insertA st.signals id cached }, id)
          | none => computeAndCache st
      | none => computeAndCache st

--==============================================================================
-- BATCHING
--==============================================================================

/-- Models `batch`: set `BATCH_UPDATES`, run `f`, clear the flag, run the drain loop
once, and return `f`'s result. -/
def batch {α : Type} (env : Env) (fuel : Nat) (f : St → St × α) (st : St) : St × α :=
  let st := { st with batchUpdates := true }
  let (st, result) := f st
  let st := { st with batchUpdates := false }
  let st := processPendingRenders env fuel st
  (st, result)

/-- A single write operation `signal.set(value)`, packaging the handle's type
tag, key and new value. -/
structure WOp where
  ty : Ty
  id : SigKey
  val : ty.denote

/-- A sequence of `set` calls, as a caller would perform inside `batch`. -/
def runWrites (env : Env) (fuel : Nat) (ops : List WOp) (st : St) : St :=
  ops.foldl (fun s op => Signal.set env fuel op.ty op.id op.val s) st

/-- The same write sequence through the render-free `setDeferred`. -/
def runWritesDeferred (ops : List WOp) (st : St) : St :=
  ops.foldl (fun s op => Signal.setDeferred op.ty op.id op.val s) st

--==============================================================================
-- HELPER LEMMAS
--==============================================================================

theorem lookupA_insertA_self {α β : Type} [DecidableEq α] (l : List (α × β)) (k : α) (v : β) :
    lookupA (insertA l k v) k = some v := by
  induction l with
  | nil => simp [insertA, lookupA]
  | cons hd tl ih =>
      obtain ⟨k', w⟩ := hd
      by_cases h : k' = k
      · simp [insertA, h, lookupA]
      · simp [insertA, h, lookupA, ih]

theorem insertSet_mem {α : Type} [DecidableEq α] (l : List α) (x : α) :
    x ∈ insertSet l x := by
  unfold insertSet
  split
  next h => exact List.mem_of_elem_eq_true h
  next h => exact List.mem_cons_self x l

theorem listMin?_eq_none {l : List Nat} (h : listMin? l = none) : l = [] := by
  cases l with
  | nil => rfl
  | cons x xs => simp [listMin?] at h

theorem foldl_min_le (xs : List Nat) (acc : Nat) :
    xs.foldl Nat.min acc ≤ acc ∧ ∀ y ∈ xs, xs.foldl Nat.min acc ≤ y := by
  induction xs generalizing acc with
  | nil => simp
  | cons z zs ih =>
      have h := ih (Nat.min acc z)
      refine ⟨le_trans h.1 (Nat.min_le_left _ _), ?_⟩
      intro y hy
      rcases List.mem_cons.mp hy with rfl | hy'
      · exact le_trans h.1 (Nat.min_le_right _ _)
      · exact h.2 y hy'

theorem listMin?_le {l : List Nat} {m : Nat} (h : listMin? l = some m) :
    ∀ x ∈ l, m ≤ x := by
  cases l with
  | nil => simp [listMin?] at h
  | cons x xs =>
      simp only [listMin?, Option.some.injEq] at h
      intro y hy
      subst h
      rcases List.mem_cons.mp hy with rfl | hy'
      · exact (foldl_min_le xs y).1
      · exact (foldl_min_le xs x).2 y hy'

theorem Signal.setDeferred_batchUpdates (t : Ty) (id : SigKey) (v : t.denote) (st : St) :
    (Signal.setDeferred t id v st).batchUpdates = st.batchUpdates := by
  unfold Signal.setDeferred
  split
  · rfl
  · split
    · rfl
    · split
      · rfl
      · rfl

theorem Signal.set_batch_eq_deferred (env : Env) (fuel : Nat) (t : Ty) (id : SigKey)
    (v : t.denote) (st : St) (h : st.batchUpdates = true) :
    Signal.set env fuel t id v st = Signal.setDeferred t id v st := by
  unfold Signal.set Signal.setDeferred
  split
  · rfl
  · split
    · rfl
    · split
      · rfl
      · simp [Signal.shouldRenderNow, getCurrentScope, h]

theorem runWrites_eq_deferred (env : Env) (fuel : Nat) (ops : List WOp) (st : St)
    (h : st.batchUpdates = true) :
    runWrites env fuel ops st = runWritesDeferred ops st := by
  induction ops generalizing st with
  | nil => rfl
  | cons op rest ih =>
      simp only [runWrites, runWritesDeferred, List.foldl_cons]
      rw [Signal.set_batch_eq_deferred env fuel op.ty op.id op.val st h]
      exact ih _ (by rw [Signal.setDeferred_batchUpdates]; exact h)

theorem drainLoopGo_bounded (render : Nat → St → St) :
    ∀ (r : Nat) (st : St),
      (drainLoopGo render r st).2.length ≤ r ∧
      ((drainLoopGo render r st).2.length < r →
        (drainLoopGo render r st).1.pendingScopeRenders = []) := by
  intro r
  induction r with
  | zero => intro st; simp [drainLoopGo]
  | succ r ih =>
      intro st
      unfold drainLoopGo
      cases hp : popMinPending st with
      | none =>
          refine ⟨by simp, fun _ => ?_⟩
          unfold popMinPending at hp
          cases hm : listMin? st.pendingScopeRenders with
          | none => simpa using listMin?_eq_none hm
          | some m => rw [hm] at hp; simp at hp
      | some p =>
          obtain ⟨scopeId, st1⟩ := p
          by_cases hr : r = 0
          · subst hr; simp
          · simp only [if_neg hr]
            have h2 := ih (render scopeId st1)
            constructor
            · simpa using Nat.succ_le_succ h2.1
            · intro hlt
              simp only [List.length_cons] at hlt
              exact h2.2 (Nat.lt_of_succ_lt_succ hlt)

--==============================================================================
-- CONCRETE FIXTURES FOR WITNESSES AND COUNTEREXAMPLES
--==============================================================================

/-- An environment of trivial closures: every render body yields `Node.empty`,
callbacks and effects leave the state as is. -/
def envId : Env :=
  { bodies := fun _ s => (s, Node.empty)
    cbs := fun _ _ s => s
    effs := fun _ s => s }

/-- An environment whose render bodies yield an observable text node. -/
def envText : Env :=
  { bodies := fun _ s => (s, Node.text ("rendered"))
    cbs := fun _ _ s => s
    effs := fun _ s => s }

/-- A scope (id 1) that has recorded dependencies on signal `(1,1)` from a
previous render and has no outstanding recorded change
(`scopeSignalChanges = []`). -/
def stDepsNoChanges : St :=
  { St.initial with
      scopeFunctions := [1]
      signals := [((1, 1), Val.vnat 0)]
      scopeDependencies := [(1, [(1, 1)])]
      signalDependencies := [((1, 1), [1])] }

/-- A store holding one `nat` signal `(1,1)` with value `0`. -/
def stOneSignal : St :=
  { St.initial with signals := [((1, 1), Val.vnat 0)] }

/-- A store whose only entry under `(1,1)` is a string, so a `nat` handle's
downcast fails. -/
def stMismatch : St :=
  { St.initial with signals := [((1, 1), Val.vstr ("x"))] }

/-- A state whose `RENDERING_SCOPE` marker is scope 1. -/
def stRendering : St :=
  { St.initial with renderingScope := 1 }

/-- A state with scopes 3, 1, 2 pending re-render. -/
def stPending : St :=
  { St.initial with pendingScopeRenders := [3, 1, 2] }

/-- A state inside scope 1's execution context. -/
def stActive : St :=
  { St.initial with currentScope := some 1 }

/-- Scope 1 active and an entry already stored for key `(1,1)` (the
re-render situation for `create_signal`). -/
def stActiveWithSig : St :=
  { St.initial with currentScope := some 1, signals := [((1, 1), Val.vnat 3)] }

/-- Scope 1 active and a memo cache entry for key `"k-1"`. -/
def stMemoCache : St :=
  { St.initial with currentScope := some 1, memoCache := [("k-1", Val.vnat 42)] }

--==============================================================================
-- CLAIMS
--==============================================================================

/-- C1: the spec states that a scope with recorded dependencies from a
previous render is skipped (returns an empty node) when none of the signals
it depends on has an outstanding recorded change.  The code diverges:
`scope_has_signal_changes` never consults `SCOPE_SIGNAL_CHANGES` — it only
asks whether the scope appears in the reverse dependency index — so a scope
with dependencies and *no* outstanding change is still fully rendered.  At
the failing input `stDepsNoChanges` (dependencies recorded, change set
empty) the gate returns `true` and `render_scope` invokes the scope's render
closure, producing its node instead of the empty node the spec requires. -/
theorem c1_dependent_scope_renders_without_outstanding_changes :
    stDepsNoChanges.scopeSignalChanges = []
    ∧ scopeHasSignalChanges stDepsNoChanges 1 = true
    ∧ (renderScope envText 1 1 stDepsNoChanges).2 = Node.text ("rendered") :=
  ⟨rfl, rfl, rfl⟩

/-- C3 counterexample: the claim says that on a handle whose entry is absent
both `with` and `get` terminate normally, never escalating to a panic.  But
`Signal::get` is `self.with(|val| val.clone()).unwrap()`: at the concrete
input of an empty store and handle `(1,1)` the `unwrap` panics (modelled as
`Except.error .unwrapNone`). -/
theorem c3_get_panics_on_absent_entry :
    (Signal.get Ty.nat (1, 1) St.initial).2 = .error .unwrapNone := rfl

/-- C3 amended: on a handle whose stored entry is absent or fails to
downcast to the handle's type, `with` degrades to a soft `None` (for every
result type and accessor function) and never panics, while `get` — being
`with(..).unwrap()` — panics on exactly those handles.  Absence degrades to
"no value" only through the `Option`-returning `with`; `get` escalates. -/
theorem c3_with_returns_none_but_get_panics (t : Ty) (id : SigKey) (st : St)
    (h : (lookupA st.signals id).bind t.downcast = none) :
    (∀ (R : Type) (f : t.denote → R), (Signal.with_ t f id st).2 = none)
    ∧ (Signal.get t id st).2 = .error .unwrapNone := by
  have hw : ∀ (R : Type) (f : t.denote → R), (Signal.with_ t f id st).2 = none := by
    intro R f
    unfold Signal.with_
    cases hcs : getCurrentScope st <;> simp [h]
  refine ⟨hw, ?_⟩
  unfold Signal.get
  have h2 := hw t.denote (fun v => v)
  rcases he : Signal.with_ t (fun v => v) id st with ⟨st2, r⟩
  rw [he] at h2
  simp only at h2
  subst h2
  simp [he]

/-- Witness for C3's amended theorem at the mismatched entry `stMismatch`
(a string stored under a `nat` handle). -/
theorem c3_with_returns_none_but_get_panics_witness :
    (Signal.with_ Ty.nat (fun v => v + 1) (1, 1) stMismatch).2 = none
    ∧ (Signal.get Ty.nat (1, 1) stMismatch).2 = .error .unwrapNone :=
  ⟨(c3_with_returns_none_but_get_panics Ty.nat (1, 1) stMismatch rfl).1 Nat (fun v => v + 1),
   (c3_with_returns_none_but_get_panics Ty.nat (1, 1) stMismatch rfl).2⟩

/-- C6: a write of a value equal (by the type's equality) to the current
stored value is a complete no-op: the stored value, the pending-change set
and the pending-render set are unchanged, and no render is triggered — the
whole runtime state is returned untouched, whatever the closure environment
and fuel. -/
theorem c6_equal_write_is_noop (env : Env) (fuel : Nat) (t : Ty) (id : SigKey)
    (v : t.denote) (st : St) (stored : Val)
    (hl : lookupA st.signals id = some stored)
    (hd : t.downcast stored = some v) :
    Signal.set env fuel t id v st = st
    ∧ (Signal.set env fuel t id v st).signals = st.signals
    ∧ (Signal.set env fuel t id v st).scopeSignalChanges = st.scopeSignalChanges
    ∧ (Signal.set env fuel t id v st).pendingScopeRenders = st.pendingScopeRenders := by
  have h0 : Signal.set env fuel t id v st = st := by
    unfold Signal.set
    simp [hl, hd]
  exact ⟨h0, by rw [h0], by rw [h0], by rw [h0]⟩

/-- Witness for C6: writing `0` into signal `(1,1)` currently holding `0`
leaves the state untouched. -/
theorem c6_equal_write_is_noop_witness :
    Signal.set envId 1 Ty.nat (1, 1) 0 stOneSignal = stOneSignal :=
  (c6_equal_write_is_noop envId 1 Ty.nat (1, 1) 0 stOneSignal (Val.vnat 0) rfl rfl).1

/-- C7: calling `render_scope(s)` while `s` is already marked as the
currently-rendering scope returns an empty node immediately with the state
untouched, for every closure environment — in particular the scope's render
closure is not invoked, so a render that triggers its own re-render cannot
recurse unboundedly. -/
theorem c7_reentrant_render_short_circuits (env : Env) (fuel : Nat)
    (scopeId : Nat) (st : St) (h : st.renderingScope = scopeId) :
    renderScope env (fuel + 1) scopeId st = (st, Node.empty) := by
  unfold renderScope
  simp [h]

/-- Witness for C7 at `stRendering` (scope 1 mid-render). -/
theorem c7_reentrant_render_short_circuits_witness :
    renderScope envText 1 1 stRendering = (stRendering, Node.empty) :=
  c7_reentrant_render_short_circuits envText 0 1 stRendering rfl

/-- C10: on a handle whose key has no stored entry, or whose stored entry
does not downcast to the handle's type, `set` is a complete no-op for every
value, closure environment and fuel: the returned state is the input state,
so nothing is inserted, recorded, queued or rendered. -/
theorem c10_set_on_absent_or_mismatched_entry_is_noop (env : Env) (fuel : Nat)
    (t : Ty) (id : SigKey) (v : t.denote) (st : St)
    (h : (lookupA st.signals id).bind t.downcast = none) :
    Signal.set env fuel t id v st = st := by
  unfold Signal.set
  split
  · rfl
  next stored hl =>
    split
    · rfl
    next currentVal hd =>
      exfalso
      rw [hl] at h
      simp [hd] at h

/-- Witness for C10 at the mismatched entry `stMismatch` and at the absent
entry of the empty store. -/
theorem c10_set_on_absent_or_mismatched_entry_is_noop_witness :
    Signal.set envId 1 Ty.nat (1, 1) 5 stMismatch = stMismatch
    ∧ Signal.set envId 1 Ty.nat (1, 1) 5 St.initial = St.initial :=
  ⟨c10_set_on_absent_or_mismatched_entry_is_noop envId 1 Ty.nat (1, 1) 5 stMismatch rfl,
   c10_set_on_absent_or_mismatched_entry_is_noop envId 1 Ty.nat (1, 1) 5 St.initial rfl⟩

/-- C2: a value-changing write records the signal's key in the
pending-change set (`Signal.setDeferred` is exactly the store update plus
change record), and then renders the owning scope synchronously if and only
if the batching flag is unset, no scope is the current execution context and
no effect is executing; otherwise the change is left recorded for a later
drain. -/
theorem c2_changing_write_records_then_renders_iff_idle (env : Env) (fuel : Nat)
    (t : Ty) (id : SigKey) (v : t.denote) (st : St)
    (stored : Val) (currentVal : t.denote)
    (hl : lookupA st.signals id = some stored)
    (hd : t.downcast stored = some currentVal)
    (hne : currentVal ≠ v) :
    Signal.setDeferred t id v st
      = { st with
            signals := insertA st.signals id (t.embed v)
            scopeSignalChanges := insertSet st.scopeSignalChanges id }
    ∧ id ∈ (Signal.setDeferred t id v st).scopeSignalChanges
    ∧ (Signal.shouldRenderNow st = true ↔
        (st.batchUpdates = false ∧ st.currentScope = none ∧ st.executingEffects = []))
    ∧ (Signal.shouldRenderNow st = true →
        Signal.set env fuel t id v st
          = (renderScope env fuel id.1 (Signal.setDeferred t id v st)).1)
    ∧ (Signal.shouldRenderNow st = false →
        Signal.set env fuel t id v st = Signal.setDeferred t id v st) := by
  have hdef : Signal.setDeferred t id v st
      = { st with
            signals := insertA st.signals id (t.embed v)
            scopeSignalChanges := insertSet st.scopeSignalChanges id } := by
    unfold Signal.setDeferred
    simp only [hl, hd]
    rw [if_neg hne]
  have hflag : ∀ b : Bool, Signal.shouldRenderNow st = b →
      Signal.set env fuel t id v st
        = (if b then (renderScope env fuel id.1 (Signal.setDeferred t id v st)).1
           else Signal.setDeferred t id v st) := by
    intro b hb
    unfold Signal.set
    simp only [hl, hd]
    rw [if_neg hne, hdef]
    have : Signal.shouldRenderNow
        { st with
            signals := insertA st.signals id (t.embed v)
            scopeSignalChanges := insertSet st.scopeSignalChanges id } = b := hb
    rw [this]
  refine ⟨hdef, ?_, ?_, ?_, ?_⟩
  · rw [hdef]
    exact insertSet_mem _ _
  · unfold Signal.shouldRenderNow getCurrentScope
    simp [Bool.and_eq_true, Option.isNone_iff_eq_none, List.isEmpty_iff, and_assoc]
  · intro hc
    simpa using hflag true hc
  · intro hc
    simpa using hflag false hc

/-- Witness for C2: writing `5` over `0` with an idle runtime
(`stOneSignal`: no batch, no active scope, no executing effect) records the
change and takes the immediate-render branch. -/
theorem c2_changing_write_records_then_renders_iff_idle_witness :
    (1, 1) ∈ (Signal.setDeferred Ty.nat (1, 1) 5 stOneSignal).scopeSignalChanges
    ∧ Signal.set envId 1 Ty.nat (1, 1) 5 stOneSignal
        = (renderScope envId 1 1 (Signal.setDeferred Ty.nat (1, 1) 5 stOneSignal)).1 :=
  ⟨(c2_changing_write_records_then_renders_iff_idle envId 1 Ty.nat (1, 1) 5 stOneSignal
      (Val.vnat 0) 0 rfl rfl (by decide)).2.1,
   (c2_changing_write_records_then_renders_iff_idle envId 1 Ty.nat (1, 1) 5 stOneSignal
      (Val.vnat 0) 0 rfl rfl (by decide)).2.2.2.1 rfl⟩

/-- C4: `batch(f)` returns exactly `f`'s result (for every `f`); every write
performed while the batching flag is set takes the deferred path — the whole
write sequence is render-free, equal to folding the store-update-only
`setDeferred`, whatever environment and fuel could have powered a render —
and after `f` returns the flag is cleared and the pending renders are
drained exactly once. -/
theorem c4_batch_defers_writes_and_drains_once (env : Env) (fuel : Nat)
    (ops : List WOp) (st : St) (r : Nat) :
    batch env fuel (fun s => (runWrites env fuel ops s, r)) st
      = (processPendingRenders env fuel
          { runWrites env fuel ops { st with batchUpdates := true } with
              batchUpdates := false }, r)
    ∧ runWrites env fuel ops { st with batchUpdates := true }
        = runWritesDeferred ops { st with batchUpdates := true }
    ∧ (∀ (α : Type) (f : St → St × α),
        (batch env fuel f st).2 = (f { st with batchUpdates := true }).2) := by
  refine ⟨rfl, runWrites_eq_deferred env fuel ops _ rfl, ?_⟩
  intro α f
  unfold batch
  rcases hf : f { st with batchUpdates := true } with ⟨st2, res⟩
  simp [hf]

/-- C5: the drain loop of `process_pending_renders` always terminates: for
every behaviour of the render callback it pops at most `MAX_ITERATIONS = 100`
scopes (stopping silently when the cap is reached), each pop takes the
lowest pending scope id, the pending set is fully emptied whenever the cap
is not reached, and `processPendingRenders` is exactly one such bounded
drain over `renderScope`. -/
theorem c5_drain_pops_min_and_stops_at_cap (render : Nat → St → St) (st : St) :
    (drainLoopGo render MAX_ITERATIONS st).2.length ≤ MAX_ITERATIONS
    ∧ ((drainLoopGo render MAX_ITERATIONS st).2.length < MAX_ITERATIONS →
        (drainLoopGo render MAX_ITERATIONS st).1.pendingScopeRenders = [])
    ∧ (∀ (scopeId : Nat) (st' : St), popMinPending st = some (scopeId, st') →
        ∀ x ∈ st.pendingScopeRenders, scopeId ≤ x)
    ∧ (∀ (env : Env) (fuel : Nat),
        processPendingRenders env fuel st
          = (drainLoopGo (fun sc s => (renderScope env fuel sc s).1)
              MAX_ITERATIONS st).1) := by
  refine ⟨(drainLoopGo_bounded render MAX_ITERATIONS st).1,
          (drainLoopGo_bounded render MAX_ITERATIONS st).2, ?_, fun _ _ => rfl⟩
  intro scopeId st' hp x hx
  unfold popMinPending at hp
  cases hm : listMin? st.pendingScopeRenders with
  | none => rw [hm] at hp; exact absurd hp (by simp)
  | some m =>
      rw [hm] at hp
      simp only [Option.some.injEq, Prod.mk.injEq] at hp
      exact hp.1 ▸ listMin?_le hm x hx

/-- Witness for C5 at `stPending` (scopes 3, 1, 2 pending, identity render):
the loop pops fewer than 100 scopes, so the pending set is drained empty,
and the first pop takes scope 1, the minimum of `[3, 1, 2]`. -/
theorem c5_drain_pops_min_and_stops_at_cap_witness :
    (drainLoopGo (fun _ s => s) MAX_ITERATIONS stPending).1.pendingScopeRenders = []
    ∧ (drainLoopGo (fun _ s => s) MAX_ITERATIONS stPending).2.length ≤ MAX_ITERATIONS
    ∧ (1 : Nat) ≤ 3 :=
  ⟨(c5_drain_pops_min_and_stops_at_cap (fun _ s => s) stPending).2.1 (by decide),
   (c5_drain_pops_min_and_stops_at_cap (fun _ s => s) stPending).1,
   (c5_drain_pops_min_and_stops_at_cap (fun _ s => s) stPending).2.2.1 1
     { stPending with pendingScopeRenders := [3, 2] } rfl 3 (by decide)⟩

/-- C8 counterexample: the claim says that on a cache hit `create_memo`
"still registers the change-triggered effect ... exactly as on the first,
uncached use".  It does not: the cache-hit branch returns before the
`create_effect` call.  At `stMemoCache` (scope 1 active, cache entry
`"k-1" ↦ 42`, no registered effects) `create_memo` seeds signal `(1,1)` from
the cache without running the computation (which would yield `7`), yet the
effect registry and effect counter of the resulting state are still empty —
no effect was registered. -/
theorem c8_memo_cache_hit_registers_no_effect :
    createMemo Ty.nat ("k") (fun s => (s, 7)) stMemoCache
      = .ok ({ stMemoCache with
                scopeSignalCounters := [(1, 1)]
                signals := [((1, 1), Val.vnat 42)] }, (1, 1))
    ∧ ({ stMemoCache with
          scopeSignalCounters := [(1, 1)]
          signals := [((1, 1), Val.vnat 42)] } : St).scopeEffects = []
    ∧ ({ stMemoCache with
          scopeSignalCounters := [(1, 1)]
          signals := [((1, 1), Val.vnat 42)] } : St).scopeEffectCounters = [] :=
  ⟨rfl, rfl, rfl⟩

/-- C8 amended: when `create_memo` finds a cached value for
(key, owning scope id) that downcasts to the expected type, it seeds the new
signal from the cached value without running the computation (the result is
the same for every computation) and returns immediately — registering no new
effect on this path: only the signal counter and the signal store change,
every other table (in particular the effect registry and effect counter) is
left as it was.  The change-triggered effect registered by the first,
uncached use remains in the registry from that earlier call. -/
theorem c8_memo_cache_hit_seeds_without_running_or_registering
    (t : Ty) (key : String) (st : St) (scopeId : Nat) (cached : Val)
    (hscope : st.currentScope = some scopeId)
    (hcache : lookupA st.memoCache (key ++ "-" ++ toString scopeId) = some cached)
    (hdc : (t.downcast cached).isSome = true) :
    ∀ computation : St → St × t.denote,
      createMemo t key computation st
        = .ok ({ st with
                  scopeSignalCounters :=
                    insertA st.scopeSignalCounters scopeId
                      ((lookupA st.scopeSignalCounters scopeId).getD 0 + 1)
                  signals :=
                    insertA st.signals
                      (scopeId, (lookupA st.scopeSignalCounters scopeId).getD 0 + 1)
                      cached },
               (scopeId, (lookupA st.scopeSignalCounters scopeId).getD 0 + 1)) := by
  intro computation
  obtain ⟨val, hval⟩ := Option.isSome_iff_exists.mp hdc
  unfold createMemo getNextSignalId getCurrentScope
  rw [hscope]
  simp only [hcache, hval]

/-- Witness for C8's amended theorem at `stMemoCache`. -/
theorem c8_memo_cache_hit_seeds_without_running_or_registering_witness :
    createMemo Ty.nat ("k") (fun s => (s, 99)) stMemoCache
      = .ok ({ stMemoCache with
                scopeSignalCounters := insertA stMemoCache.scopeSignalCounters 1
                  ((lookupA stMemoCache.scopeSignalCounters 1).getD 0 + 1)
                signals := insertA stMemoCache.signals
                  (1, (lookupA stMemoCache.scopeSignalCounters 1).getD 0 + 1)
                  (Val.vnat 42) },
             (1, (lookupA stMemoCache.scopeSignalCounters 1).getD 0 + 1)) :=
  c8_memo_cache_hit_seeds_without_running_or_registering Ty.nat ("k") stMemoCache 1
    (Val.vnat 42) rfl rfl rfl (fun s => (s, 99))

/-- C9: inside an active scope, `create_signal` assigns the scope's next
ordinal key; when no entry exists under that key it stores the initial value
and an immediate `get` on the resulting state returns exactly that value;
when an entry already exists (a re-render repeating the id sequence) the
stored value is preserved and the initializer is never run — the result is
the same for every initializer, and only the signal counter changes. -/
theorem c9_create_signal_initial_get_and_rerender_preserve
    (t : Ty) (st : St) (scopeId : Nat)
    (hscope : st.currentScope = some scopeId) :
    (∀ v : t.denote,
      lookupA st.signals (scopeId, (lookupA st.scopeSignalCounters scopeId).getD 0 + 1) = none →
      createSignal t (.value v) st
        = .ok ({ st with
                  scopeSignalCounters :=
                    insertA st.scopeSignalCounters scopeId
                      ((lookupA st.scopeSignalCounters scopeId).getD 0 + 1)
                  signals :=
                    insertA st.signals
                      (scopeId, (lookupA st.scopeSignalCounters scopeId).getD 0 + 1)
                      (t.embed v) },
               (scopeId, (lookupA st.scopeSignalCounters scopeId).getD 0 + 1))
      ∧ (Signal.get t (scopeId, (lookupA st.scopeSignalCounters scopeId).getD 0 + 1)
          ({ st with
              scopeSignalCounters :=
                insertA st.scopeSignalCounters scopeId
                  ((lookupA st.scopeSignalCounters scopeId).getD 0 + 1)
              signals :=
                insertA st.signals
                  (scopeId, (lookupA st.scopeSignalCounters scopeId).getD 0 + 1)
                  (t.embed v) })).2 = .ok v)
    ∧ (∀ stored : Val,
        lookupA st.signals (scopeId, (lookupA st.scopeSignalCounters scopeId).getD 0 + 1)
          = some stored →
        ∀ init : SignalInit t,
          createSignal t init st
            = .ok ({ st with
                      scopeSignalCounters :=
                        insertA st.scopeSignalCounters scopeId
                          ((lookupA st.scopeSignalCounters scopeId).getD 0 + 1) },
                   (scopeId, (lookupA st.scopeSignalCounters scopeId).getD 0 + 1))) := by
  constructor
  · intro v hnone
    constructor
    · unfold createSignal getNextSignalId getCurrentScope
      rw [hscope]
      simp only [hnone, Option.isNone_none, if_pos]
    · unfold Signal.get Signal.with_ getCurrentScope
      simp [hscope, lookupA_insertA_self, Ty.downcast_embed]
  · intro stored hsome init
    unfold createSignal getNextSignalId getCurrentScope
    rw [hscope]
    simp only [hsome, Option.isNone_some, Bool.false_eq_true, if_neg]
    simp

/-- Witness for C9: at `stActive` (scope 1 active, empty store) creating a
`nat` signal with value `7` stores it under `(1,1)` and `get` returns `7`;
at `stActiveWithSig` (an entry `3` already under `(1,1)`) re-creating the
signal with a different initializer preserves the state's stored entry and
only bumps the counter. -/
theorem c9_create_signal_initial_get_and_rerender_preserve_witness :
    (Signal.get Ty.nat (1, 1)
      ({ stActive with
          scopeSignalCounters := insertA stActive.scopeSignalCounters 1
            ((lookupA stActive.scopeSignalCounters 1).getD 0 + 1)
          signals := insertA stActive.signals
            (1, (lookupA stActive.scopeSignalCounters 1).getD 0 + 1)
            (Ty.nat.embed 7) })).2 = .ok 7
    ∧ createSignal Ty.nat (.initFn (fun s => (s, 99))) stActiveWithSig
        = .ok ({ stActiveWithSig with
                  scopeSignalCounters := insertA stActiveWithSig.scopeSignalCounters 1
                    ((lookupA stActiveWithSig.scopeSignalCounters 1).getD 0 + 1) },
               (1, (lookupA stActiveWithSig.scopeSignalCounters 1).getD 0 + 1)) :=
  ⟨((c9_create_signal_initial_get_and_rerender_preserve Ty.nat stActive 1 rfl).1 7 rfl).2,
   (c9_create_signal_initial_get_and_rerender_preserve Ty.nat stActiveWithSig 1 rfl).2
     (Val.vnat 3) rfl (.initFn (fun s => (s, 99)))⟩
